import Mathlib

/-!
Verification development for the Goal Tracker repository.

The repository's visible source (src/frontend/src/App.js) is the React view
layer.  The Goal Progress Engine and the Goal Service deposit lifecycle are
specified in spec.md but their implementation is not under src/, so those
parts are modelled from the spec (each such definition says so in its doc
comment).  The view-layer functions (formatDays, the progress clamp, the
projection-line rendering conditions and the remaining-amount display) are
translated from App.js.

Monetary amounts and timestamps (measured in days) are modelled as rational
numbers.
-/

/-- A savings goal record, following spec.md section 3 (Data Model). -/
structure Goal where
  id : Nat
  owner_id : Nat
  name : String
  target_amount : ℚ
  current_amount : ℚ
  completed : Bool
  completion_date : Option ℚ
  created_at : ℚ
deriving Repr, DecidableEq

/-- A deposit record, following spec.md section 3 (Data Model). -/
structure Transaction where
  id : Nat
  goal_id : Nat
  amount : ℚ
  description : Option String
  created_at : ℚ
deriving Repr, DecidableEq

/-- The derived progress snapshot, spec.md section 3: the two projection
fields are optional and absence is modelled by `none`. -/
structure GoalProgress where
  progress_percentage : ℚ
  remaining_amount : ℚ
  average_daily_savings : Option ℚ
  estimated_days_to_completion : Option ℚ
deriving Repr, DecidableEq

/-- Error raised by the engine on invalid input, spec.md section 7. -/
inductive ProgressError where
  | invalidInput
deriving Repr, DecidableEq

/-- Modelled from the spec: `progress_percentage` is
`min(100, current_amount / target_amount * 100)`, and defensively `0` when
`target_amount <= 0` (spec.md section 3, GoalProgress). -/
def progressPercentage (target current : ℚ) : ℚ :=
  if target ≤ 0 then 0 else min 100 (current / target * 100)

/-- Modelled from the spec: `remaining_amount = max(0, target_amount -
current_amount)` (spec.md section 3, GoalProgress). -/
def remainingAmount (target current : ℚ) : ℚ :=
  max 0 (target - current)

/-- Modelled from the spec: elapsed whole days between two timestamps
(glossary entry "Span days"); timestamps are in days, so this is the floor
of the difference. -/
def daysBetween (a b : ℚ) : ℤ :=
  ⌊b - a⌋

/-- Modelled from the spec: the earliest transaction of the list (the engine
sorts internally; only the minimum by `created_at` is needed). -/
def firstTransaction : List Transaction → Option Transaction
  | [] => none
  | t :: ts =>
      some (ts.foldl (fun acc u => if u.created_at < acc.created_at then u else acc) t)

/-- Modelled from the spec: the projection pair
(`average_daily_savings`, `estimated_days_to_completion`) of spec.md
section 4.1, steps 2 to 4.  Both fields are omitted when the goal is
completed, when there are no transactions, or when the computed rate is not
positive (spec.md section 7: a degraded-but-valid result with projection
fields omitted). -/
def projection (goal : Goal) (transactions : List Transaction) (now : ℚ) :
    Option ℚ × Option ℚ :=
  if goal.completed then (none, none)
  else
    match firstTransaction transactions with
    | none => (none, none)
    | some ft =>
        let span : ℚ := max 1 ((daysBetween ft.created_at now : ℤ) : ℚ)
        let avg := goal.current_amount / span
        if 0 < avg then
          (some avg, some (remainingAmount goal.target_amount goal.current_amount / avg))
        else (none, none)

/-- Modelled from the spec: the Goal Progress Engine contract
`compute_progress(goal, transactions) -> GoalProgress` of spec.md
section 4.1, evaluated at time `now`.  Fails with `InvalidInputError` when
`goal.target_amount <= 0` or some transaction's `goal_id` does not match
`goal.id`. -/
def compute_progress (goal : Goal) (transactions : List Transaction) (now : ℚ) :
    Except ProgressError GoalProgress :=
  if goal.target_amount ≤ 0 ∨ ∃ t ∈ transactions, t.goal_id ≠ goal.id then
    Except.error ProgressError.invalidInput
  else
    Except.ok
      { progress_percentage := progressPercentage goal.target_amount goal.current_amount
        remaining_amount := remainingAmount goal.target_amount goal.current_amount
        average_daily_savings := (projection goal transactions now).1
        estimated_days_to_completion := (projection goal transactions now).2 }

/-- View layer, App.js line 330: the percentage actually displayed is the
fetched snapshot's percentage re-clamped to at most 100, and 0 when no
snapshot has been fetched yet. -/
def viewProgressPercentage (progress : Option GoalProgress) : ℚ :=
  match progress with
  | some p => min p.progress_percentage 100
  | none => 0

/-- View layer, App.js lines 188 to 195: `formatDays`.  A JavaScript number
is falsy exactly when it is zero, so `!days` is modelled as `days = 0`. -/
def formatDays (days : ℚ) : String :=
  if days = 0 then "No estimate available"
  else if days < 1 then "Less than 1 day"
  else if days < 7 then toString ⌈days⌉ ++ " days"
  else if days < 30 then toString ⌈days / 7⌉ ++ " weeks"
  else if days < 365 then toString ⌈days / 30⌉ ++ " months"
  else toString ⌈days / 365⌉ ++ " years"

/-- JavaScript truthiness of an optional numeric field: truthy exactly when
present and non-zero. -/
def truthyOpt (o : Option ℚ) : Bool :=
  match o with
  | some x => decide (x ≠ 0)
  | none => false

/-- View layer, App.js lines 362 and 375: the estimated-days line is
rendered only in the not-completed branch and only when
`progress?.estimated_days_to_completion` is truthy. -/
def showEstimatedDaysLine (completed : Bool) (progress : Option GoalProgress) : Bool :=
  !completed && truthyOpt (progress.bind GoalProgress.estimated_days_to_completion)

/-- View layer, App.js lines 362 and 380: the average-daily-savings line is
rendered only in the not-completed branch and only when
`progress?.average_daily_savings` is truthy. -/
def showAverageSavingsLine (completed : Bool) (progress : Option GoalProgress) : Bool :=
  !completed && truthyOpt (progress.bind GoalProgress.average_daily_savings)

/-- View layer, App.js line 373: the displayed remaining amount is
`progress?.remaining_amount || (goal.target_amount - goal.current_amount)`:
the fetched snapshot's `remaining_amount` when it is truthy (present and
non-zero), otherwise the locally computed difference without any floor. -/
def displayedRemaining (goal : Goal) (progress : Option GoalProgress) : ℚ :=
  match progress with
  | some p =>
      if p.remaining_amount = 0 then goal.target_amount - goal.current_amount
      else p.remaining_amount
  | none => goal.target_amount - goal.current_amount

/-- Mutable part of a goal together with its ledger of applied transactions,
for the lifecycle state machine of spec.md section 4.2. -/
structure GoalState where
  current_amount : ℚ
  completed : Bool
  completion_date : Option ℚ
  ledger : List Transaction
deriving Repr, DecidableEq

/-- Modelled from the spec: initial state on creation is `Active` with
`current_amount = 0` and an empty ledger (spec.md section 4.2). -/
def initialState : GoalState :=
  { current_amount := 0, completed := false, completion_date := none, ledger := [] }

/-- Modelled from the spec: the Goal Service deposit application of spec.md
sections 2 and 4.2: append the transaction, increase `current_amount` by its
amount, flip `completed` when the target is reached, and set
`completion_date` to the deposit time exactly once at the Active to
Completed transition, never changing it afterwards. -/
def applyDeposit (target : ℚ) (s : GoalState) (t : Transaction) : GoalState :=
  let current := s.current_amount + t.amount
  { current_amount := current
    completed := decide (target ≤ current)
    completion_date :=
      if s.completed then s.completion_date
      else if target ≤ current then some t.created_at else none
    ledger := s.ledger ++ [t] }

/-- Modelled from the spec: a sequence of deposit applications in order. -/
def applyDeposits (target : ℚ) (s : GoalState) (ts : List Transaction) : GoalState :=
  ts.foldl (applyDeposit target) s

/-- Sum of the amounts of the ledger transactions belonging to goal `gid`,
the right-hand side of the spec.md section 3 invariant. -/
def goalLedgerSum (gid : Nat) (ts : List Transaction) : ℚ :=
  ((ts.filter (fun t => t.goal_id == gid)).map Transaction.amount).sum

/-- The spec.md section 3 record invariant for a goal state: the running
amount matches the ledger, `completed` tracks the target comparison, and
`completion_date` is absent exactly when the goal is not completed. -/
def GoalInv (gid : Nat) (target : ℚ) (s : GoalState) : Prop :=
  s.current_amount = goalLedgerSum gid s.ledger ∧
  (s.completed = true ↔ target ≤ s.current_amount) ∧
  (s.completion_date = none ↔ s.completed = false)

/-- Concrete goal for the spec.md section 8 scenario with target 1000. -/
def scenarioGoal : Goal :=
  { id := 1, owner_id := 1, name := "New bike", target_amount := 1000, current_amount := 100,
    completed := false, completion_date := none, created_at := 0 }

/-- Concrete transaction for the spec.md section 8 scenario: one deposit of
100 created exactly at the evaluation time. -/
def scenarioTransaction : Transaction :=
  { id := 1, goal_id := 1, amount := 100, description := none, created_at := 0 }

/-- Concrete goal with a zero target, for the invalid-input scenario. -/
def zeroTargetGoal : Goal :=
  { id := 2, owner_id := 1, name := "Broken", target_amount := 0, current_amount := 0,
    completed := false, completion_date := none, created_at := 0 }

/-- Concrete completed goal: target 500 reached exactly. -/
def completedGoal : Goal :=
  { id := 3, owner_id := 1, name := "Laptop", target_amount := 500, current_amount := 500,
    completed := true, completion_date := some 0, created_at := 0 }

/-- Concrete over-funded, not-yet-marked-completed goal for the view-layer
remaining-amount display. -/
def overGoal : Goal :=
  { id := 4, owner_id := 1, name := "Over", target_amount := 100, current_amount := 150,
    completed := false, completion_date := none, created_at := 0 }

/-- Concrete deposits for the lifecycle state machine. -/
def depositA : Transaction :=
  { id := 10, goal_id := 1, amount := 5, description := none, created_at := 0 }

def depositB : Transaction :=
  { id := 11, goal_id := 1, amount := 7, description := none, created_at := 1 }

def depositC : Transaction :=
  { id := 12, goal_id := 1, amount := 3, description := none, created_at := 2 }

theorem scenario_eval :
    compute_progress scenarioGoal [scenarioTransaction] 0 =
      Except.ok { progress_percentage := 10, remaining_amount := 900,
                  average_daily_savings := some 100,
                  estimated_days_to_completion := some 9 } := by
  have hproj : projection scenarioGoal [scenarioTransaction] 0 = (some 100, some 9) := by
    unfold projection firstTransaction daysBetween
    norm_num [scenarioGoal, scenarioTransaction, remainingAmount, max_def]
  unfold compute_progress
  rw [if_neg]
  · rw [hproj]
    unfold progressPercentage remainingAmount
    norm_num [scenarioGoal, min_def, max_def]
  · norm_num [scenarioGoal, scenarioTransaction]

theorem compute_progress_ok_fields (goal : Goal) (transactions : List Transaction) (now : ℚ)
    (gp : GoalProgress) (hok : compute_progress goal transactions now = Except.ok gp) :
    gp.progress_percentage = progressPercentage goal.target_amount goal.current_amount ∧
    gp.remaining_amount = remainingAmount goal.target_amount goal.current_amount ∧
    gp.average_daily_savings = (projection goal transactions now).1 ∧
    gp.estimated_days_to_completion = (projection goal transactions now).2 := by
  unfold compute_progress at hok
  split at hok
  · exact absurd hok (by simp)
  · simp only [Except.ok.injEq] at hok
    subst hok
    exact ⟨rfl, rfl, rfl, rfl⟩

/-- C1: for every goal with positive target amount (and the data-model
invariant of a non-negative current amount), the progress percentage in any
snapshot produced by compute_progress lies between 0 and 100, and the view
re-clamps any fetched percentage to at most 100 before display. -/
theorem c1_progress_percentage_bounds (goal : Goal) (transactions : List Transaction)
    (now : ℚ) (gp : GoalProgress) (progress : Option GoalProgress)
    (hok : compute_progress goal transactions now = Except.ok gp)
    (ht : 0 < goal.target_amount) (hc : 0 ≤ goal.current_amount) :
    (0 ≤ gp.progress_percentage ∧ gp.progress_percentage ≤ 100) ∧
    viewProgressPercentage progress ≤ 100 := by
  obtain ⟨hp, -, -, -⟩ := compute_progress_ok_fields goal transactions now gp hok
  constructor
  · rw [hp]
    unfold progressPercentage
    rw [if_neg (not_le.mpr ht)]
    refine ⟨le_min (by norm_num) (by positivity), min_le_left _ _⟩
  · cases progress with
    | none => simp [viewProgressPercentage]
    | some p => exact min_le_right p.progress_percentage 100

theorem c1_witness :
    (0 ≤ ({ progress_percentage := 10, remaining_amount := 900,
            average_daily_savings := some 100,
            estimated_days_to_completion := some 9 } : GoalProgress).progress_percentage ∧
      ({ progress_percentage := 10, remaining_amount := 900,
         average_daily_savings := some 100,
         estimated_days_to_completion := some 9 } : GoalProgress).progress_percentage ≤ 100) ∧
    viewProgressPercentage none ≤ 100 :=
  c1_progress_percentage_bounds scenarioGoal [scenarioTransaction] 0 _ none
    scenario_eval (by norm_num [scenarioGoal]) (by norm_num [scenarioGoal])

/-- C2: for every goal with positive target and non-negative current amount,
the snapshot's remaining amount is non-negative, and it is zero exactly when
the progress percentage is 100. -/
theorem c2_remaining_amount_iff (goal : Goal) (transactions : List Transaction)
    (now : ℚ) (gp : GoalProgress)
    (hok : compute_progress goal transactions now = Except.ok gp)
    (ht : 0 < goal.target_amount) (hc : 0 ≤ goal.current_amount) :
    0 ≤ gp.remaining_amount ∧ (gp.remaining_amount = 0 ↔ gp.progress_percentage = 100) := by
  obtain ⟨hp, hr, -, -⟩ := compute_progress_ok_fields goal transactions now gp hok
  rw [hp, hr]
  unfold progressPercentage remainingAmount
  rw [if_neg (not_le.mpr ht)]
  refine ⟨le_max_left _ _, ?_⟩
  have key : goal.target_amount ≤ goal.current_amount ↔
      (100 : ℚ) ≤ goal.current_amount / goal.target_amount * 100 := by
    rw [div_mul_eq_mul_div, le_div_iff₀ ht]
    constructor <;> intro h <;> nlinarith
  rw [max_eq_left_iff, min_eq_left_iff, sub_nonpos, key]

theorem c2_witness :
    0 ≤ ({ progress_percentage := 10, remaining_amount := 900,
           average_daily_savings := some 100,
           estimated_days_to_completion := some 9 } : GoalProgress).remaining_amount ∧
    (({ progress_percentage := 10, remaining_amount := 900,
        average_daily_savings := some 100,
        estimated_days_to_completion := some 9 } : GoalProgress).remaining_amount = 0 ↔
      ({ progress_percentage := 10, remaining_amount := 900,
         average_daily_savings := some 100,
         estimated_days_to_completion := some 9 } : GoalProgress).progress_percentage = 100) :=
  c2_remaining_amount_iff scenarioGoal [scenarioTransaction] 0 _
    scenario_eval (by norm_num [scenarioGoal]) (by norm_num [scenarioGoal])

/-- C3: compute_progress fails with InvalidInputError exactly when the
target amount is non-positive or some transaction belongs to a different
goal; in particular a goal with target 0 yields the error rather than the
defensive zero percentage. -/
theorem c3_invalid_input_iff (goal : Goal) (transactions : List Transaction) (now : ℚ) :
    (compute_progress goal transactions now = Except.error ProgressError.invalidInput ↔
      (goal.target_amount ≤ 0 ∨ ∃ t ∈ transactions, t.goal_id ≠ goal.id)) ∧
    compute_progress zeroTargetGoal [] 0 = Except.error ProgressError.invalidInput := by
  constructor
  · unfold compute_progress
    split
    · next h => exact iff_of_true rfl h
    · next h => exact iff_of_false (fun hh => Except.noConfusion hh) h
  · unfold compute_progress
    rw [if_pos]
    norm_num [zeroTargetGoal]

/-- C5: the spec.md section 8 scenario: target 1000, one transaction of 100
created exactly at the evaluation time, so the span is floored to 1 day; the
snapshot is 10 percent, 900 remaining, rate 100 per day, 9 days to go. -/
theorem c5_scenario :
    compute_progress scenarioGoal [scenarioTransaction] 0 =
      Except.ok { progress_percentage := 10, remaining_amount := 900,
                  average_daily_savings := some 100,
                  estimated_days_to_completion := some 9 } :=
  scenario_eval


theorem projection_completed (goal : Goal) (transactions : List Transaction) (now : ℚ)
    (hc : goal.completed = true) :
    projection goal transactions now = (none, none) := by
  unfold projection
  rw [if_pos hc]

theorem projection_nil (goal : Goal) (now : ℚ) :
    projection goal [] now = (none, none) := by
  unfold projection
  split
  · rfl
  · rfl

theorem projection_fst_pos (goal : Goal) (transactions : List Transaction) (now : ℚ)
    (b : ℚ) (hb : (projection goal transactions now).1 = some b) : 0 < b := by
  unfold projection at hb
  split at hb
  · exact absurd hb (by simp)
  · cases htx : firstTransaction transactions with
    | none => rw [htx] at hb; exact absurd hb (by simp)
    | some ft =>
        rw [htx] at hb
        dsimp only at hb
        split at hb
        · next hpos =>
            simp only [Prod.fst, Option.some.injEq] at hb
            exact hb ▸ hpos
        · exact absurd hb (by simp)

theorem projection_none_none (goal : Goal) (transactions : List Transaction) (now : ℚ)
    (h1 : (projection goal transactions now).1 = none) :
    (projection goal transactions now).2 = none := by
  unfold projection at h1 ⊢
  split at h1 <;> split <;> try rfl
  cases htx : firstTransaction transactions with
  | none => simp only [htx]
  | some ft =>
      simp only [htx] at h1 ⊢
      split at h1
      · exact absurd h1 (by simp)
      · next hpos => rw [if_neg hpos]

theorem completed_eval :
    compute_progress completedGoal [] 0 =
      Except.ok { progress_percentage := 100, remaining_amount := 0,
                  average_daily_savings := none,
                  estimated_days_to_completion := none } := by
  unfold compute_progress
  rw [if_neg]
  · rw [projection_completed completedGoal [] 0 rfl]
    unfold progressPercentage remainingAmount
    norm_num [completedGoal, min_def, max_def]
  · norm_num [completedGoal]

/-- C4: the projection fields of any snapshot produced by compute_progress
are both absent (not null or zero) whenever the goal is completed, the
transaction list is empty, or the computed daily rate is not positive
(equivalently, a present rate is always positive, and the estimate is absent
whenever the rate is); and the view renders the projection lines only in the
not-completed branch and only when the respective field is present and
truthy. -/
theorem c4_projection_fields_omitted (goal : Goal) (transactions : List Transaction)
    (now : ℚ) (gp : GoalProgress) (a : ℚ) (completedb : Bool)
    (progress : Option GoalProgress)
    (hok : compute_progress goal transactions now = Except.ok gp) :
    (goal.completed = true →
      gp.average_daily_savings = none ∧ gp.estimated_days_to_completion = none) ∧
    (transactions = [] →
      gp.average_daily_savings = none ∧ gp.estimated_days_to_completion = none) ∧
    (gp.average_daily_savings = some a → 0 < a) ∧
    (gp.average_daily_savings = none → gp.estimated_days_to_completion = none) ∧
    (showEstimatedDaysLine completedb progress = true →
      completedb = false ∧
        (progress.bind GoalProgress.estimated_days_to_completion).isSome = true) ∧
    (showAverageSavingsLine completedb progress = true →
      completedb = false ∧
        (progress.bind GoalProgress.average_daily_savings).isSome = true) := by
  obtain ⟨-, -, ha, he⟩ := compute_progress_ok_fields goal transactions now gp hok
  refine ⟨?_, ?_, ?_, ?_, ?_, ?_⟩
  · intro hc
    rw [ha, he, projection_completed goal transactions now hc]
    exact ⟨rfl, rfl⟩
  · intro hnil
    subst hnil
    rw [ha, he, projection_nil goal now]
    exact ⟨rfl, rfl⟩
  · intro hsome
    rw [ha] at hsome
    exact projection_fst_pos goal transactions now a hsome
  · intro hnone
    rw [ha] at hnone
    rw [he]
    exact projection_none_none goal transactions now hnone
  · intro hshow
    unfold showEstimatedDaysLine at hshow
    rw [Bool.and_eq_true, Bool.not_eq_true'] at hshow
    refine ⟨hshow.1, ?_⟩
    cases hopt : progress.bind GoalProgress.estimated_days_to_completion with
    | none => rw [hopt] at hshow; exact absurd hshow.2 (by simp [truthyOpt])
    | some v => rfl
  · intro hshow
    unfold showAverageSavingsLine at hshow
    rw [Bool.and_eq_true, Bool.not_eq_true'] at hshow
    refine ⟨hshow.1, ?_⟩
    cases hopt : progress.bind GoalProgress.average_daily_savings with
    | none => rw [hopt] at hshow; exact absurd hshow.2 (by simp [truthyOpt])
    | some v => rfl

theorem c4_witness :
    (completedGoal.completed = true →
      ({ progress_percentage := 100, remaining_amount := 0,
         average_daily_savings := none,
         estimated_days_to_completion := none } : GoalProgress).average_daily_savings = none ∧
      ({ progress_percentage := 100, remaining_amount := 0,
         average_daily_savings := none,
         estimated_days_to_completion := none } : GoalProgress).estimated_days_to_completion = none) ∧
    (([] : List Transaction) = [] →
      ({ progress_percentage := 100, remaining_amount := 0,
         average_daily_savings := none,
         estimated_days_to_completion := none } : GoalProgress).average_daily_savings = none ∧
      ({ progress_percentage := 100, remaining_amount := 0,
         average_daily_savings := none,
         estimated_days_to_completion := none } : GoalProgress).estimated_days_to_completion = none) ∧
    (({ progress_percentage := 100, remaining_amount := 0,
        average_daily_savings := none,
        estimated_days_to_completion := none } : GoalProgress).average_daily_savings = some 1 → 0 < (1 : ℚ)) ∧
    (({ progress_percentage := 100, remaining_amount := 0,
        average_daily_savings := none,
        estimated_days_to_completion := none } : GoalProgress).average_daily_savings = none →
      ({ progress_percentage := 100, remaining_amount := 0,
         average_daily_savings := none,
         estimated_days_to_completion := none } : GoalProgress).estimated_days_to_completion = none) ∧
    (showEstimatedDaysLine true none = true →
      true = false ∧ ((none : Option GoalProgress).bind GoalProgress.estimated_days_to_completion).isSome = true) ∧
    (showAverageSavingsLine true none = true →
      true = false ∧ ((none : Option GoalProgress).bind GoalProgress.average_daily_savings).isSome = true) :=
  c4_projection_fields_omitted completedGoal [] 0 _ 1 true none completed_eval

/-- C6: for every positive day count, formatDays uses the thresholds 1, 7,
30 and 365 with ceiling rounding: less than 1 day, ceiling days, ceiling
weeks (by 7), ceiling months (by 30) and ceiling years (by 365). -/
theorem c6_format_days_thresholds (d : ℚ) (hd : 0 < d) :
    (d < 1 → formatDays d = "Less than 1 day") ∧
    (1 ≤ d → d < 7 → formatDays d = toString ⌈d⌉ ++ " days") ∧
    (7 ≤ d → d < 30 → formatDays d = toString ⌈d / 7⌉ ++ " weeks") ∧
    (30 ≤ d → d < 365 → formatDays d = toString ⌈d / 30⌉ ++ " months") ∧
    (365 ≤ d → formatDays d = toString ⌈d / 365⌉ ++ " years") := by
  have hne : ¬ d = 0 := ne_of_gt hd
  unfold formatDays
  rw [if_neg hne]
  refine ⟨?_, ?_, ?_, ?_, ?_⟩
  · intro h
    rw [if_pos h]
  · intro h1 h7
    rw [if_neg (not_lt.mpr h1), if_pos h7]
  · intro h7 h30
    rw [if_neg (by linarith : ¬ d < 1), if_neg (not_lt.mpr h7), if_pos h30]
  · intro h30 h365
    rw [if_neg (by linarith : ¬ d < 1), if_neg (by linarith : ¬ d < 7),
      if_neg (not_lt.mpr h30), if_pos h365]
  · intro h365
    rw [if_neg (by linarith : ¬ d < 1), if_neg (by linarith : ¬ d < 7),
      if_neg (by linarith : ¬ d < 30), if_neg (not_lt.mpr h365)]

theorem c6_witness :
    ((45 : ℚ) < 1 → formatDays 45 = "Less than 1 day") ∧
    ((1 : ℚ) ≤ 45 → (45 : ℚ) < 7 → formatDays 45 = toString ⌈(45 : ℚ)⌉ ++ " days") ∧
    ((7 : ℚ) ≤ 45 → (45 : ℚ) < 30 → formatDays 45 = toString ⌈(45 : ℚ) / 7⌉ ++ " weeks") ∧
    ((30 : ℚ) ≤ 45 → (45 : ℚ) < 365 → formatDays 45 = toString ⌈(45 : ℚ) / 30⌉ ++ " months") ∧
    ((365 : ℚ) ≤ 45 → formatDays 45 = toString ⌈(45 : ℚ) / 365⌉ ++ " years") :=
  c6_format_days_thresholds 45 (by norm_num)

theorem goalLedgerSum_append_single (gid : Nat) (l : List Transaction) (t : Transaction)
    (h : t.goal_id = gid) :
    goalLedgerSum gid (l ++ [t]) = goalLedgerSum gid l + t.amount := by
  unfold goalLedgerSum
  rw [List.filter_append, List.map_append, List.sum_append]
  simp [List.filter, h]

theorem goalInv_applyDeposit (gid : Nat) (target : ℚ) (s : GoalState) (t : Transaction)
    (hinv : GoalInv gid target s) (hgid : t.goal_id = gid) (hamt : 0 < t.amount) :
    GoalInv gid target (applyDeposit target s t) := by
  unfold GoalInv at hinv
  obtain ⟨hsum, hcomp, hdate⟩ := hinv
  unfold GoalInv applyDeposit
  dsimp only
  refine ⟨?_, ?_, ?_⟩
  · rw [goalLedgerSum_append_single gid s.ledger t hgid, hsum]
  · simp
  · by_cases hc : s.completed = true
    · rw [if_pos hc]
      have h2 : target ≤ s.current_amount + t.amount :=
        le_add_of_le_of_nonneg (hcomp.mp hc) hamt.le
      constructor
      · intro hnone
        have hfalse := hdate.mp hnone
        rw [hc] at hfalse
        exact Bool.noConfusion hfalse
      · intro hdec
        rw [decide_eq_false_iff_not] at hdec
        exact absurd h2 hdec
    · rw [if_neg hc]
      by_cases hle : target ≤ s.current_amount + t.amount
      · rw [if_pos hle]
        simp [hle]
      · rw [if_neg hle]
        simp [hle]

theorem goalInv_applyDeposits (gid : Nat) (target : ℚ) :
    ∀ (ts : List Transaction) (s : GoalState),
      GoalInv gid target s →
      (∀ t ∈ ts, t.goal_id = gid ∧ 0 < t.amount) →
      GoalInv gid target (applyDeposits target s ts)
  | [], _, hinv, _ => hinv
  | t :: ts, s, hinv, hall =>
      goalInv_applyDeposits gid target ts (applyDeposit target s t)
        (goalInv_applyDeposit gid target s t hinv
          (hall t (List.mem_cons_self t ts)).1 (hall t (List.mem_cons_self t ts)).2)
        (fun u hu => hall u (List.mem_cons_of_mem t hu))

theorem completion_date_frozen (gid : Nat) (target : ℚ) :
    ∀ (ts : List Transaction) (s : GoalState),
      GoalInv gid target s → s.completed = true →
      (∀ t ∈ ts, t.goal_id = gid ∧ 0 < t.amount) →
      (applyDeposits target s ts).completion_date = s.completion_date
  | [], _, _, _, _ => rfl
  | t :: ts, s, hinv, hcomp, hall => by
      have h := hall t (List.mem_cons_self t ts)
      have hinv2 := goalInv_applyDeposit gid target s t hinv h.1 h.2
      have hle : target ≤ s.current_amount + t.amount :=
        le_add_of_le_of_nonneg ((hinv.2.1).mp hcomp) h.2.le
      have hcomp2 : (applyDeposit target s t).completed = true := by
        unfold applyDeposit
        dsimp only
        simpa using hle
      have hdate2 : (applyDeposit target s t).completion_date = s.completion_date := by
        unfold applyDeposit
        dsimp only
        rw [if_pos hcomp]
      have hrec := completion_date_frozen gid target ts (applyDeposit target s t)
        hinv2 hcomp2 (fun u hu => hall u (List.mem_cons_of_mem t hu))
      calc (applyDeposits target s (t :: ts)).completion_date
      
      _ = (applyDeposits target (applyDeposit target s t) ts).completion_date := rfl
      _ = (applyDeposit target s t).completion_date := hrec
      _ = s.completion_date := hdate2

/-- C7: every goal state reached from creation by positive deposits for this
goal satisfies the record invariant (the current amount is the ledger sum,
completed tracks the target comparison, and the completion date is absent
exactly when the goal is not completed), and once the goal is completed any
further deposits leave the completion date unchanged. -/
theorem c7_goal_lifecycle (gid : Nat) (target : ℚ) (ds ds2 : List Transaction)
    (ht : 0 < target)
    (hds : ∀ t ∈ ds, t.goal_id = gid ∧ 0 < t.amount)
    (hds2 : ∀ t ∈ ds2, t.goal_id = gid ∧ 0 < t.amount) :
    GoalInv gid target (applyDeposits target initialState ds) ∧
    ((applyDeposits target initialState ds).completed = true →
      (applyDeposits target (applyDeposits target initialState ds) ds2).completion_date =
        (applyDeposits target initialState ds).completion_date) := by
  have hinit : GoalInv gid target initialState := by
    unfold GoalInv initialState goalLedgerSum
    refine ⟨rfl, ?_, by simp⟩
    dsimp only
    constructor
    · intro hfalse
      exact Bool.noConfusion hfalse
    · intro hle
      exact absurd hle (not_le.mpr ht)
  refine ⟨goalInv_applyDeposits gid target ds initialState hinit hds, ?_⟩
  intro hcomp
  exact completion_date_frozen gid target ds2 (applyDeposits target initialState ds)
    (goalInv_applyDeposits gid target ds initialState hinit hds) hcomp hds2

theorem c7_witness :
    GoalInv 1 10 (applyDeposits 10 initialState [depositA, depositB]) ∧
    ((applyDeposits 10 initialState [depositA, depositB]).completed = true →
      (applyDeposits 10 (applyDeposits 10 initialState [depositA, depositB])
          [depositC]).completion_date =
        (applyDeposits 10 initialState [depositA, depositB]).completion_date) :=
  c7_goal_lifecycle 1 10 [depositA, depositB] [depositC] (by norm_num)
    (by norm_num [depositA, depositB]) (by norm_num [depositC])

/-- C8: compute_progress is deterministic: two calls with identical goal,
transaction list and evaluation time return identical GoalProgress results
(the embedding is a pure function, so neither call can mutate its inputs). -/
theorem c8_compute_progress_deterministic (g1 g2 : Goal) (ts1 ts2 : List Transaction)
    (n1 n2 : ℚ) (hg : g1 = g2) (hts : ts1 = ts2) (hn : n1 = n2) :
    compute_progress g1 ts1 n1 = compute_progress g2 ts2 n2 := by
  rw [hg, hts, hn]

theorem c8_witness :
    compute_progress scenarioGoal [scenarioTransaction] 0 =
      compute_progress scenarioGoal [scenarioTransaction] 0 :=
  c8_compute_progress_deterministic scenarioGoal scenarioGoal
    [scenarioTransaction] [scenarioTransaction] 0 0 rfl rfl rfl

/-- C9: the view treats a present-but-zero projection value like an absent
one: formatDays 0 is the no-estimate label, each projection line is rendered
only when the corresponding optional field is present and truthy, and a
snapshot carrying a zero estimate or a zero rate renders neither line. -/
theorem c9_zero_projection_not_rendered (completedb : Bool)
    (progress : Option GoalProgress) (gp1 gp2 : GoalProgress)
    (h1 : gp1.estimated_days_to_completion = some 0)
    (h2 : gp2.average_daily_savings = some 0) :
    formatDays 0 = "No estimate available" ∧
    (showEstimatedDaysLine completedb progress = true →
      completedb = false ∧
        truthyOpt (progress.bind GoalProgress.estimated_days_to_completion) = true) ∧
    (showAverageSavingsLine completedb progress = true →
      completedb = false ∧
        truthyOpt (progress.bind GoalProgress.average_daily_savings) = true) ∧
    showEstimatedDaysLine completedb (some gp1) = false ∧
    showAverageSavingsLine completedb (some gp2) = false := by
  refine ⟨by rw [formatDays, if_pos rfl], ?_, ?_, ?_, ?_⟩
  · intro h
    unfold showEstimatedDaysLine at h
    rw [Bool.and_eq_true, Bool.not_eq_true'] at h
    exact h
  · intro h
    unfold showAverageSavingsLine at h
    rw [Bool.and_eq_true, Bool.not_eq_true'] at h
    exact h
  · simp [showEstimatedDaysLine, truthyOpt, h1]
  · simp [showAverageSavingsLine, truthyOpt, h2]

theorem c9_witness :
    formatDays 0 = "No estimate available" ∧
    (showEstimatedDaysLine false none = true →
      false = false ∧
        truthyOpt ((none : Option GoalProgress).bind
          GoalProgress.estimated_days_to_completion) = true) ∧
    (showAverageSavingsLine false none = true →
      false = false ∧
        truthyOpt ((none : Option GoalProgress).bind
          GoalProgress.average_daily_savings) = true) ∧
    showEstimatedDaysLine false
      (some { progress_percentage := 50, remaining_amount := 50,
              average_daily_savings := some 0,
              estimated_days_to_completion := some 0 }) = false ∧
    showAverageSavingsLine false
      (some { progress_percentage := 50, remaining_amount := 50,
              average_daily_savings := some 0,
              estimated_days_to_completion := some 0 }) = false :=
  c9_zero_projection_not_rendered false none
    { progress_percentage := 50, remaining_amount := 50,
      average_daily_savings := some 0, estimated_days_to_completion := some 0 }
    { progress_percentage := 50, remaining_amount := 50,
      average_daily_savings := some 0, estimated_days_to_completion := some 0 }
    rfl rfl

/-- C10: for a non-completed goal whose snapshot is absent or whose
snapshot's remaining amount is zero, the view displays the locally computed
difference target minus current without the zero floor, so an over-funded
such goal displays a negative remaining amount. -/
theorem c10_displayed_remaining_unfloored (goal : Goal) (progress : Option GoalProgress)
    (p : GoalProgress) (hnc : goal.completed = false)
    (h : progress = none ∨ (progress = some p ∧ p.remaining_amount = 0)) :
    displayedRemaining goal progress = goal.target_amount - goal.current_amount ∧
    (goal.target_amount < goal.current_amount → displayedRemaining goal progress < 0) := by
  have heq : displayedRemaining goal progress =
      goal.target_amount - goal.current_amount := by
    rcases h with h | ⟨hp, hz⟩
    · rw [h]
      rfl
    · rw [hp]
      simp only [displayedRemaining]
      rw [if_pos hz]
  refine ⟨heq, ?_⟩
  intro hlt
  rw [heq]
  linarith

theorem c10_witness :
    displayedRemaining overGoal none = overGoal.target_amount - overGoal.current_amount ∧
    (overGoal.target_amount < overGoal.current_amount → displayedRemaining overGoal none < 0) :=
  c10_displayed_remaining_unfloored overGoal none
    { progress_percentage := 0, remaining_amount := 0,
      average_daily_savings := none, estimated_days_to_completion := none }
    rfl (Or.inl rfl)
